import Mathlib

/-!
Verification of the napcat_client WebSocket client
(src/napcat_client/client.py and src/napcat_client/utils.py).

The embedding models the correlation engine of NapCatWebSocketClient —
the response_futures table, handle_message, send_action and close — and
the pure message-chain builder QQMessageChain.to_list, translated
directly from the source.
-/

namespace NapcatClient

/-- An inbound JSON frame, reduced to the fields handle_message inspects
(data.get("echo"), data.get("post_type"), data.get("message_type")); the
`rest` field stands for the remaining key/value pairs of the dict, which
the client carries around but never reads. `none` models an absent key. -/
structure Frame where
  echo : Option String
  post_type : Option String
  message_type : Option String
  rest : List (String × String)
  deriving DecidableEq, Repr

/-- State of one asyncio.Future stored in self.response_futures:
still pending, cancelled (by asyncio.wait_for on timeout), or done with
a result frame. -/
inductive FutureState where
  | pending
  | cancelled
  | done (result : Frame)
  deriving DecidableEq, Repr

/-- self.response_futures: dict token -> asyncio.Future (client.py line 27),
modelled as an association list; Python dict keys are unique, which the
theorems that need it take as a Nodup hypothesis. -/
abbrev Table := List (String × FutureState)

/-- `tok in d` / `d[tok]`: value stored under a token. -/
def findToken? : Table → String → Option FutureState
  | [], _ => none
  | (k, v) :: rest, tok => if k = tok then some v else findToken? rest tok

/-- Removal part of `d.pop(tok)`: drop the binding for tok. -/
def eraseToken : Table → String → Table
  | [], _ => []
  | (k, v) :: rest, tok => if k = tok then rest else (k, v) :: eraseToken rest tok

/-- `d[tok] = fut`: overwrite or append the binding for tok. -/
def setToken : Table → String → FutureState → Table
  | [], tok, fut => [(tok, fut)]
  | (k, v) :: rest, tok, fut =>
      if k = tok then (k, fut) :: rest else (k, v) :: setToken rest tok fut

/-- keys of the table are pairwise distinct (always true of a Python dict). -/
def nodupKeys (t : Table) : Prop := (t.map Prod.fst).Nodup

instance (t : Table) : Decidable (nodupKeys t) := by
  unfold nodupKeys; infer_instance

/-- Number of callbacks registered in each list of self.event_callbacks
(client.py lines 32-38); `priv` models the "private" entry. -/
structure Callbacks where
  group : Nat
  priv : Nat
  notice : Nat
  napcat : Nat
  meta : Nat
  deriving DecidableEq, Repr

/-- Event categories of self.event_callbacks; `priv` is the "private"
category. -/
inductive Category where
  | group
  | priv
  | notice
  | napcat
  | meta
  deriving DecidableEq, Repr

/-- The event half of handle_message (client.py lines 161-207): the list of
asyncio.create_task(func(data)) calls it schedules, one entry per registered
callback of the selected category, in registration order. The emptiness
guards mirror lines 166, 172, 176, 180 and 205. -/
def eventDispatch (cbs : Callbacks) (data : Frame) : List (Category × Frame) :=
  match data.post_type with
  | some post_type =>
      if post_type = "message" then
        let message_type := data.message_type
        if message_type = some "group" then
          if cbs.group ≠ 0 then List.replicate cbs.group (Category.group, data) else []
        else if message_type = some "private" then
          if cbs.priv ≠ 0 then List.replicate cbs.priv (Category.priv, data) else []
        else []
      else if post_type = "notice" then
        if cbs.notice ≠ 0 then List.replicate cbs.notice (Category.notice, data) else []
      else if post_type = "meta_event" then
        if cbs.meta ≠ 0 then List.replicate cbs.meta (Category.meta, data) else []
      else []
  | none =>
      if cbs.napcat ≠ 0 then List.replicate cbs.napcat (Category.napcat, data) else []

/-- Observable effects of one handle_message call:
`resolved = some (tok, data)` when the popped future received data via
set_result; `discarded = true` when a matching frame was dropped because
its future was already cancelled; `scheduled` lists the event-callback
tasks created; `raised = true` when the call raises (set_result on a future
that is already done raises InvalidStateError). -/
structure HandleResult where
  resolved : Option (String × Frame)
  discarded : Bool
  scheduled : List (Category × Frame)
  raised : Bool
  deriving DecidableEq, Repr

/-- handle_message (client.py lines 147-207). The guard at line 153 is
`if echo and echo in self.response_futures`: the token must be present and
truthy (a non-empty string). On a match the entry is popped (line 154) and,
unless the future was cancelled, set_result delivers the whole frame
(lines 155-156); the method then returns without touching the event path.
Otherwise the frame goes to event classification, which never mutates the
table. -/
def handleMessage (cbs : Callbacks) (table : Table) (data : Frame) :
    Table × HandleResult :=
  match data.echo with
  | some e =>
      if e ≠ "" then
        match findToken? table e with
        | some fut =>
            let table' := eraseToken table e
            match fut with
            | FutureState.cancelled => (table', ⟨none, true, [], false⟩)
            | FutureState.pending => (table', ⟨some (e, data), false, [], false⟩)
            | FutureState.done _ => (table', ⟨none, false, [], true⟩)
        | none => (table, ⟨none, false, eventDispatch cbs data, false⟩)
      else (table, ⟨none, false, eventDispatch cbs data, false⟩)
  | none => (table, ⟨none, false, eventDispatch cbs data, false⟩)

/-! ## send_action (client.py lines 276-302) -/

/-- Opaque request parameters, modelled as the key/value pairs of the
params dict. -/
abbrev Params := List (String × String)

/-- The outbound message dict built at lines 284-288. -/
structure OutFrame where
  action : String
  params : Params
  echo : String
  deriving DecidableEq, Repr

/-- `action.replace("/", "")` (line 285): with a one-character pattern and an
empty replacement, Python str.replace removes every "/" character. -/
def removeSlashes (s : String) : String := String.mk (s.data.filter (fun c => c ≠ '/'))

def buildMessage (action : String) (params : Params) (echo : String) : OutFrame :=
  { action := removeSlashes action, params := params, echo := echo }

/-- A JSON value appearing in the serialized request. -/
inductive JVal where
  | str (s : String)
  | obj (o : Params)
  deriving DecidableEq, Repr

/-- json.dumps of the message dict (line 291): the serialized object has
exactly the three fields of the dict literal at lines 284-288, in that
order. -/
def serializeMessage (m : OutFrame) : List (String × JVal) :=
  [("action", JVal.str m.action), ("params", JVal.obj m.params), ("echo", JVal.str m.echo)]

/-- Externally visible steps of send_action before a response can arrive. -/
inductive SendStep where
  | register (tok : String)
  | send (frame : OutFrame)
  deriving DecidableEq, Repr

/-- Lines 278-291 of send_action: generate a token (`tok`, fresh from
uuid.uuid4), create a pending future and register it in response_futures
(lines 281-282), build the message (lines 284-288), then send it over the
websocket (line 291). The returned step list records the order of the two
externally visible operations. -/
def sendActionStart (action : String) (params : Params) (tok : String) (table : Table) :
    Table × OutFrame × List SendStep :=
  let table₁ := setToken table tok FutureState.pending
  let message := buildMessage action params tok
  (table₁, message, [SendStep.register tok, SendStep.send message])

/-- Result of `await v` where `v` is the value produced by
`self.response_futures.pop(echo, None)` (lines 298 and 301). None is not
awaitable, so awaiting it raises TypeError; a cancelled future raises
asyncio.CancelledError from its result(); a future that already holds a
result returns it; a still-pending future suspends the coroutine — and
because the future was just popped from response_futures, the only map
through which handle_message can ever complete it, the suspension lasts
forever. -/
inductive AwaitResult where
  | normal (r : Frame)
  | raisesCancelled
  | raisesType
  | hangsForever
  deriving DecidableEq, Repr

def awaitFuture : Option FutureState → AwaitResult
  | none => AwaitResult.raisesType
  | some FutureState.cancelled => AwaitResult.raisesCancelled
  | some (FutureState.done r) => AwaitResult.normal r
  | some FutureState.pending => AwaitResult.hangsForever

/-- How a send_action call terminates (or fails to). `timeoutErr` carries
the action name interpolated into TimeoutError at line 299; `propagate`
stands for the bare `raise` at line 302 re-raising the original transport
failure. -/
inductive SendOutcome where
  | ok (resp : Frame)
  | timeoutErr (action : String)
  | cancelledErr
  | typeErr
  | hangs
  | propagate
  deriving DecidableEq, Repr

/-- The `except asyncio.TimeoutError` branch of send_action
(lines 297-299), entered when no matching response resolved the future
within the timeout. asyncio.wait_for has just cancelled the future object
registered under tok, so the table still holds tok, now cancelled. Line 298
then awaits the value returned by `self.response_futures.pop(echo, None)`:
the pop removes the entry, and the await of its result decides what the
caller sees. `raise TimeoutError(...)` at line 299 runs only if that await
returns normally. -/
def sendActionTimeoutBranch (action tok : String) (table : Table) :
    Table × SendOutcome :=
  let table₁ := setToken table tok FutureState.cancelled
  let fut := findToken? table₁ tok
  let table₂ := eraseToken table₁ tok
  match awaitFuture fut with
  | AwaitResult.raisesType => (table₂, SendOutcome.typeErr)
  | AwaitResult.raisesCancelled => (table₂, SendOutcome.cancelledErr)
  | AwaitResult.hangsForever => (table₂, SendOutcome.hangs)
  | AwaitResult.normal _ => (table₂, SendOutcome.timeoutErr action)

/-- The bare `except Exception` branch of send_action (lines 300-302),
entered when `await self.websocket.send(...)` at line 291 raised: the
future registered under tok is still pending. Line 301 pops the entry and
awaits the popped value; the bare `raise` at line 302 re-raising the
original failure runs only if that await returns normally. -/
def sendActionSendFailureBranch (tok : String) (table : Table) :
    Table × SendOutcome :=
  let fut := findToken? table tok
  let table' := eraseToken table tok
  match awaitFuture fut with
  | AwaitResult.raisesType => (table', SendOutcome.typeErr)
  | AwaitResult.raisesCancelled => (table', SendOutcome.cancelledErr)
  | AwaitResult.hangsForever => (table', SendOutcome.hangs)
  | AwaitResult.normal _ => (table', SendOutcome.propagate)

/-! ## close (client.py lines 309-324) -/

/-- Status of the listening task. -/
inductive TaskStatus where
  | running
  | done
  deriving DecidableEq, Repr

/-- The session fields read or written by close: shutdown_event
(asyncio.Event, line 28), login_success_event (line 30), websocket
(line 26, none until connect; `some closed` tracks whether it has been
closed) and _listening_task (line 31, none until run starts it). -/
structure SessionState where
  shutdown_event : Bool
  login_success_event : Bool
  websocket : Option Bool
  listening_task : Option TaskStatus
  deriving DecidableEq, Repr

/-- close (lines 309-324): set the shutdown event and clear the
login-success event (both asyncio.Event operations are idempotent and
never raise); if a websocket exists, close it (websockets close is
idempotent, so a second call on an already-closed socket is a no-op); if
the listening task exists and is not done, cancel it and await it — the
CancelledError is caught at line 318 — leaving the task done. A task
object stays truthy after completion, so the second guard is the
`not ... .done()` check. -/
def close (s : SessionState) : SessionState :=
  let s₁ : SessionState := { s with shutdown_event := true, login_success_event := false }
  let s₂ : SessionState :=
    match s₁.websocket with
    | some _ => { s₁ with websocket := some true }
    | none => s₁
  match s₂.listening_task with
  | some TaskStatus.running => { s₂ with listening_task := some TaskStatus.done }
  | _ => s₂

/-! ## QQMessageChain.to_list (utils.py lines 87-178) -/

/-- Message segments of utils.py lines 5-84. Constructors keep the fields
their __init__ stores (after the str(...) conversions applied there);
optional fields default to None. -/
inductive QQMessageType where
  | Text (text : String)
  | Image (url : Option String) (base64 : Option String)
  | At (pid : String) (nickname : Option String)
  | Reply (message_id : String) (message_content : Option String)
  | Emoji (emoji_id : String)
  | Sticker (sticker_id : String) (sticker_bs64 : String)
  | Record (bs64 : String)
  | Notice (text : String)
  | Poke (pid : String)
  deriving DecidableEq, Repr

/-- The `data` sub-dict of one wire entry appended by to_list. -/
inductive WireData where
  | textD (text : String)
  | imageD (file : String) (summary : String)
  | atD (qq : String)
  | replyD (id : String)
  | faceD (id : Int)
  | recordD (file : String)
  deriving DecidableEq, Repr

/-- One wire entry: the dict `{"type": ..., "data": {...}}`. -/
structure WireEntry where
  type : String
  data : WireData
  deriving DecidableEq, Repr

/-- Truthiness of an optional-string attribute (`if ele.url:`,
`elif ele.base64:`): false for None and for the empty string. -/
def optTruthy : Option String → Bool
  | none => false
  | some s => s != ""

/-- The image-extension alternation of the regular expressions at
utils.py lines 107-108 and 152-153, in pattern order. -/
def imageExts : List String := ["jpg", "jpeg", "png", "gif", "bmp", "webp", "tiff", "svg"]

/-- Models `re.match("data:image/(jpg|jpeg|png|gif|bmp|webp|tiff|svg);base64,(.*)", s)`
and returns group(2). Everything before the last group is literal, so the
pattern matches exactly when one of the literal prefixes
`data:image/<ext>;base64,` starts the string; `.` does not cross a newline,
so group(2) is the remainder of the first line. The test-only pattern at
lines 107 and 152 (without the trailing group) matches exactly when this
returns some. -/
def imageDataUrlGroup2 (s : String) : Option String :=
  (imageExts.filterMap (fun ext =>
    let pre := "data:image/" ++ ext ++ ";base64,"
    if pre.data.isPrefixOf s.data then
      some (String.mk ((s.data.drop pre.data.length).takeWhile (fun c => c != '\n')))
    else none)).head?

/-- Last index of `pat` inside `cs` (none when it never occurs). -/
def lastIndexOfSeq (cs pat : List Char) : Option Nat :=
  ((List.range (cs.length + 1)).filter (fun i => pat.isPrefixOf (cs.drop i))).getLast?

/-- Models `re.match("data:(.*)/(.*);base64,(.*)", s)` (utils.py line 168)
and returns group(3). `.` stays on the first line; the match requires the
line to start with "data:" and, in the remainder, a "/" to occur before
some ";base64,". The groups are greedy, matched left to right, so the
";base64," that ends group(2) is the last occurrence on the line (a "/"
must occur before it, which holds whenever a "/" precedes any occurrence),
and group(3) is the rest of the line after it. The test-only pattern at
line 167 matches exactly when this returns some. -/
def recordDataUrlGroup3 (s : String) : Option String :=
  let line := s.data.takeWhile (fun c => c != '\n')
  if "data:".data.isPrefixOf line then
    let rest := line.drop 5
    match lastIndexOfSeq rest ";base64,".data with
    | some i =>
        if (rest.take i).contains '/' then some (String.mk (rest.drop (i + 8)))
        else none
    | none => none
  else none

/-- Digit run of a Python int literal after its first digit: ASCII digits
optionally separated by single underscores (a trailing or doubled
underscore is invalid). -/
def pyDigitsAux : Nat → List Char → Option Nat
  | acc, [] => some acc
  | _, ['_'] => none
  | acc, '_' :: c :: cs =>
      if c.isDigit then pyDigitsAux (10 * acc + (c.toNat - 48)) cs else none
  | acc, c :: cs =>
      if c.isDigit then pyDigitsAux (10 * acc + (c.toNat - 48)) cs else none

/-- A nonempty digit run starting with a digit (no leading underscore). -/
def pyIntDigits : List Char → Option Nat
  | [] => none
  | c :: cs => if c.isDigit then pyDigitsAux (c.toNat - 48) cs else none

/-- Models Python `int(s)` for ASCII strings (utils.py line 144):
surrounding whitespace is stripped, then an optional sign precedes the
digits; any other shape raises ValueError, caught by the bare except at
line 147 — modelled as none. -/
def pyInt? (s : String) : Option Int :=
  let cs := ((s.data.dropWhile Char.isWhitespace).reverse.dropWhile Char.isWhitespace).reverse
  match cs with
  | '+' :: rest => (pyIntDigits rest).map Int.ofNat
  | '-' :: rest => (pyIntDigits rest).map (fun n => -(Int.ofNat n : Int))
  | rest => (pyIntDigits rest).map Int.ofNat

/-- file_param for an Image segment (utils.py lines 102-113). -/
def imageFileParam (url base64 : Option String) : String :=
  if optTruthy url then url.getD ""
  else if optTruthy base64 then
    let b := base64.getD ""
    if b.startsWith "base64://" then b
    else
      match imageDataUrlGroup2 b with
      | some g => "base64://" ++ g
      | none => ""
  else ""

/-- file_param for a Sticker segment (utils.py lines 150-156). -/
def stickerFileParam (b : String) : String :=
  if b.startsWith "base64://" then b
  else
    match imageDataUrlGroup2 b with
    | some g => "base64://" ++ g
    | none => ""

/-- file_param for a Record segment (utils.py lines 165-171). -/
def recordFileParam (b : String) : String :=
  if b.startsWith "base64://" then b
  else
    match recordDataUrlGroup3 b with
    | some g => "base64://" ++ g
    | none => ""

/-- `isinstance(item, QQMessageType.Reply)` for an item of msg_list
(utils.py line 130): every element ever placed into msg_list is one of the
wire dicts built at lines 95-177, never an instance of the segment class
QQMessageType.Reply, so the test is False for every item the loop can see. -/
def wireEntryIsReplyInstance (_ : WireEntry) : Bool := false

/-- One iteration of the to_list loop body (utils.py lines 93-177) acting
on the accumulator msg_list. Text, Image, At, Emoji (when int() succeeds),
Sticker and Record append one entry at the end; Reply runs the guard of
line 130 and otherwise inserts its entry at index 0; Emoji whose id fails
int() is skipped by the bare except; Notice and Poke match no branch and
contribute nothing. -/
def toListStep (msg_list : List WireEntry) (ele : QQMessageType) : List WireEntry :=
  match ele with
  | QQMessageType.Text text => msg_list ++ [⟨"text", WireData.textD text⟩]
  | QQMessageType.Image url base64 =>
      msg_list ++ [⟨"image", WireData.imageD (imageFileParam url base64) "[图片]"⟩]
  | QQMessageType.At pid _ => msg_list ++ [⟨"at", WireData.atD pid⟩]
  | QQMessageType.Reply message_id _ =>
      if msg_list.any wireEntryIsReplyInstance then msg_list
      else ⟨"reply", WireData.replyD message_id⟩ :: msg_list
  | QQMessageType.Emoji emoji_id =>
      match pyInt? emoji_id with
      | some n => msg_list ++ [⟨"face", WireData.faceD n⟩]
      | none => msg_list
  | QQMessageType.Sticker _ sticker_bs64 =>
      msg_list ++ [⟨"image", WireData.imageD (stickerFileParam sticker_bs64) "[动画表情]"⟩]
  | QQMessageType.Record bs64 =>
      msg_list ++ [⟨"record", WireData.recordD (recordFileParam bs64)⟩]
  | QQMessageType.Notice _ => msg_list
  | QQMessageType.Poke _ => msg_list

/-- QQMessageChain (utils.py lines 87-89). -/
structure QQMessageChain where
  msg_seg_list : List QQMessageType
  deriving DecidableEq, Repr

/-- QQMessageChain.to_list (utils.py lines 91-178): fold the loop body over
the segments starting from the empty msg_list. -/
def QQMessageChain.to_list (c : QQMessageChain) : List WireEntry :=
  c.msg_seg_list.foldl toListStep []

/-- The wire entry a Reply segment contributes (utils.py lines 133-138);
none for every other segment. -/
def segReplyConv : QQMessageType → Option WireEntry
  | QQMessageType.Reply message_id _ => some ⟨"reply", WireData.replyD message_id⟩
  | _ => none

/-- The wire entry a non-reply segment contributes when converted in place:
none for Reply (handled separately), for Notice and Poke (no branch), and
for an Emoji whose id fails int(). -/
def segNonReplyConv : QQMessageType → Option WireEntry
  | QQMessageType.Text text => some ⟨"text", WireData.textD text⟩
  | QQMessageType.Image url base64 =>
      some ⟨"image", WireData.imageD (imageFileParam url base64) "[图片]"⟩
  | QQMessageType.At pid _ => some ⟨"at", WireData.atD pid⟩
  | QQMessageType.Reply _ _ => none
  | QQMessageType.Emoji emoji_id =>
      (pyInt? emoji_id).map (fun n => ⟨"face", WireData.faceD n⟩)
  | QQMessageType.Sticker _ sticker_bs64 =>
      some ⟨"image", WireData.imageD (stickerFileParam sticker_bs64) "[动画表情]"⟩
  | QQMessageType.Record bs64 =>
      some ⟨"record", WireData.recordD (recordFileParam bs64)⟩
  | QQMessageType.Notice _ => none
  | QQMessageType.Poke _ => none

/-- Whether a segment is a Notice or a Poke. -/
def segIsNoticeOrPoke : QQMessageType → Bool
  | QQMessageType.Notice _ => true
  | QQMessageType.Poke _ => true
  | _ => false

/-! ## Helper lemmas -/

lemma findToken?_eq_none_of_not_mem (t : Table) (e : String)
    (h : e ∉ t.map Prod.fst) : findToken? t e = none := by
  induction t with
  | nil => rfl
  | cons p rest ih =>
      rcases p with ⟨k, v⟩
      simp only [List.map_cons, List.mem_cons] at h
      push_neg at h
      rw [findToken?, if_neg (fun hk => h.1 hk.symm)]
      exact ih h.2

lemma findToken?_eraseToken_self (t : Table) (e : String)
    (h : nodupKeys t) : findToken? (eraseToken t e) e = none := by
  induction t with
  | nil => rfl
  | cons p rest ih =>
      rcases p with ⟨k, v⟩
      unfold nodupKeys at h
      simp only [List.map_cons, List.nodup_cons] at h
      by_cases hk : k = e
      · rw [eraseToken, if_pos hk]
        exact findToken?_eq_none_of_not_mem rest e (hk ▸ h.1)
      · rw [eraseToken, if_neg hk, findToken?, if_neg hk]
        exact ih h.2

lemma findToken?_setToken_self (t : Table) (tok : String) (v : FutureState) :
    findToken? (setToken t tok v) tok = some v := by
  induction t with
  | nil => simp [setToken, findToken?]
  | cons p rest ih =>
      rcases p with ⟨k, w⟩
      by_cases hk : k = tok <;> simp [setToken, findToken?, hk, ih]

lemma handleMessage_noecho (cbs : Callbacks) (t : Table) (pt mt : Option String)
    (r : List (String × String)) :
    handleMessage cbs t ⟨none, pt, mt, r⟩
      = (t, ⟨none, false, eventDispatch cbs ⟨none, pt, mt, r⟩, false⟩) := rfl

lemma handleMessage_echo_miss (cbs : Callbacks) (t : Table) (e : String)
    (pt mt : Option String) (r : List (String × String))
    (h : findToken? t e = none) :
    handleMessage cbs t ⟨some e, pt, mt, r⟩
      = (t, ⟨none, false, eventDispatch cbs ⟨some e, pt, mt, r⟩, false⟩) := by
  unfold handleMessage
  by_cases h1 : e = ""
  · simp [h1]
  · simp [h1, h]

/-! ## Claim theorems -/

/-- C7: calling close twice has the same effect on the session state
(shutdown flag, login-success event, websocket, listening task) as calling
it once; the embedded close is total, reflecting that asyncio.Event set
and clear, websockets close on a closed socket, and the guarded task
cancellation raise no double-close or double-cancellation error. -/
theorem close_idempotent (s : SessionState) : close (close s) = close s := by
  rcases s with ⟨sd, ls, ws, lt⟩
  cases ws <;> rcases lt with _ | t <;> first | rfl | (cases t <;> rfl)

/-- C2 (evaluation at a failing input): a send_action call for
"get_login_info" whose pending token "echo-1" receives no response within
the timeout enters the TimeoutError branch, which removes the entry from
the table but then raises asyncio.CancelledError from awaiting the popped
cancelled future, instead of the TimeoutError naming the action that
line 299 would raise. -/
theorem sendAction_timeout_raises_cancelled :
    sendActionTimeoutBranch "get_login_info" "echo-1" [("echo-1", FutureState.pending)]
      = ([], SendOutcome.cancelledErr) := by rfl

/-- C3 (evaluation at a failing input): when websocket.send fails for a
send_action call with pending token "echo-1", the except branch removes
the entry from the table but then awaits the popped still-pending future,
which nothing can ever complete: the call suspends forever instead of
re-raising the transport failure. -/
theorem sendAction_sendFailure_hangs :
    sendActionSendFailureBranch "echo-1" [("echo-1", FutureState.pending)]
      = ([], SendOutcome.hangs) := by rfl

/-- C8: for every send_action call, the serialized outbound frame has
exactly the fields action, params and echo; the action value is the given
action with every "/" removed and hence contains no "/"; params is passed
through; echo is the generated token; that token is registered pending in
the table produced by the registration step; and in the step trace the
registration precedes the send. -/
theorem sendAction_message_shape (action : String) (params : Params) (tok : String)
    (table : Table) :
    ((serializeMessage (sendActionStart action params tok table).2.1).map Prod.fst
        = ["action", "params", "echo"])
    ∧ (sendActionStart action params tok table).2.1.action = removeSlashes action
    ∧ '/' ∉ ((sendActionStart action params tok table).2.1.action).data
    ∧ (sendActionStart action params tok table).2.1.params = params
    ∧ (sendActionStart action params tok table).2.1.echo = tok
    ∧ findToken? (sendActionStart action params tok table).1 tok = some FutureState.pending
    ∧ (sendActionStart action params tok table).2.2
        = [SendStep.register tok, SendStep.send (sendActionStart action params tok table).2.1] := by
  refine ⟨rfl, rfl, ?_, rfl, rfl, ?_, rfl⟩
  · simp [sendActionStart, buildMessage, removeSlashes, List.mem_filter]
  · exact findToken?_setToken_self table tok FutureState.pending

/-- C6 (evaluation at a failing input): a chain holding two Reply segments
produces two reply wire entries (the guard at utils.py line 130 tests
isinstance against the wire dicts already in msg_list, which is always
false, so the second Reply is inserted at the front as well), while the
claim and utils.py line 130 itself intend at most one. -/
theorem to_list_two_reply_entries :
    QQMessageChain.to_list ⟨[QQMessageType.Reply "1" none, QQMessageType.Reply "2" none]⟩
      = [⟨"reply", WireData.replyD "2"⟩, ⟨"reply", WireData.replyD "1"⟩]
    ∧ (QQMessageChain.to_list ⟨[QQMessageType.Reply "1" none, QQMessageType.Reply "2" none]⟩).countP
        (fun en => en.type == "reply") = 2 := ⟨rfl, rfl⟩

/-- C4: every inbound frame is routed to at most one destination and never
both: either handle_message schedules no subscriber task (the correlation
side, covering resolution, silent discard of a cancelled entry, and empty
dispatch), or it is a pure event dispatch that resolves nothing, discards
nothing and leaves the correlation table unchanged. -/
theorem handleMessage_exclusive_routing (cbs : Callbacks) (table : Table) (data : Frame) :
    (handleMessage cbs table data).2.scheduled = []
    ∨ ((handleMessage cbs table data).2.resolved = none
        ∧ (handleMessage cbs table data).2.discarded = false
        ∧ (handleMessage cbs table data).1 = table) := by
  rcases data with ⟨echo, pt, mt, r⟩
  cases echo with
  | none => exact Or.inr ⟨rfl, rfl, rfl⟩
  | some e =>
      by_cases h1 : e = ""
      · subst h1
        exact Or.inr ⟨rfl, rfl, rfl⟩
      · cases hf : findToken? table e with
        | none => right; simp [handleMessage, h1, hf]
        | some fut => cases fut <;> (left; simp [handleMessage, h1, hf])

/-- C5: a frame whose echo token is not in the correlation table is handed
to event classification: the table is unchanged, nothing is resolved or
discarded, no error is raised, the scheduled tasks are exactly the event
dispatch of the frame, and when post_type is absent the frame goes to the
napcat (gateway-status) subscribers. -/
theorem handleMessage_unknown_token_is_event (cbs : Callbacks) (table : Table)
    (e : String) (pt mt : Option String) (r : List (String × String))
    (hmiss : findToken? table e = none) :
    handleMessage cbs table ⟨some e, pt, mt, r⟩
      = (table, ⟨none, false, eventDispatch cbs ⟨some e, pt, mt, r⟩, false⟩)
    ∧ (handleMessage cbs table ⟨some e, none, mt, r⟩).2.scheduled
      = List.replicate cbs.napcat (Category.napcat, ⟨some e, none, mt, r⟩) := by
  refine ⟨handleMessage_echo_miss cbs table e pt mt r hmiss, ?_⟩
  rw [handleMessage_echo_miss cbs table e none mt r hmiss]
  by_cases hn : cbs.napcat = 0 <;> simp [eventDispatch, hn]

/-- Witness for C5 at a concrete input: token "tok" absent from the table,
a post_type-free frame reaching the napcat category. -/
theorem handleMessage_unknown_token_is_event_witness :
    findToken? [("other", FutureState.pending)] "tok" = none
    ∧ (handleMessage ⟨1, 1, 1, 2, 1⟩ [("other", FutureState.pending)] ⟨some "tok", none, none, []⟩
        = ([("other", FutureState.pending)],
           ⟨none, false, eventDispatch ⟨1, 1, 1, 2, 1⟩ ⟨some "tok", none, none, []⟩, false⟩)
      ∧ (handleMessage ⟨1, 1, 1, 2, 1⟩ [("other", FutureState.pending)] ⟨some "tok", none, none, []⟩).2.scheduled
        = List.replicate 2 (Category.napcat, ⟨some "tok", none, none, []⟩)) :=
  ⟨by decide,
   handleMessage_unknown_token_is_event ⟨1, 1, 1, 2, 1⟩ [("other", FutureState.pending)]
     "tok" none none [] (by decide)⟩

/-- C9: a frame with no pending echo match whose post_type is none of
message, notice and meta_event, or whose message_type under post_type
message is neither group nor private, invokes no subscriber at all — in
particular it is not routed to the napcat category — and leaves the table
unchanged, resolving and raising nothing. -/
theorem handleMessage_unknown_event_drops (cbs : Callbacks) (table : Table)
    (echo : Option String) (pt : String) (mt : Option String) (r : List (String × String))
    (hecho : ∀ e, echo = some e → findToken? table e = none)
    (hbad : (pt ≠ "message" ∧ pt ≠ "notice" ∧ pt ≠ "meta_event")
        ∨ (pt = "message" ∧ mt ≠ some "group" ∧ mt ≠ some "private")) :
    handleMessage cbs table ⟨echo, some pt, mt, r⟩
      = (table, ⟨none, false, [], false⟩) := by
  have hdisp : eventDispatch cbs ⟨echo, some pt, mt, r⟩ = [] := by
    rcases hbad with ⟨h1, h2, h3⟩ | ⟨h1, h2, h3⟩
    · simp [eventDispatch, h1, h2, h3]
    · simp [eventDispatch, h1, h2, h3]
  cases echo with
  | none => rw [handleMessage_noecho, hdisp]
  | some e => rw [handleMessage_echo_miss cbs table e (some pt) mt r (hecho e rfl), hdisp]

/-- Witness for C9 at a concrete input: a frame with post_type "request"
(unknown discriminator) and a token absent from the table invokes no
subscriber and changes nothing. -/
theorem handleMessage_unknown_event_drops_witness :
    (∀ e, (some "tok" : Option String) = some e → findToken? [("other", FutureState.pending)] e = none)
    ∧ ((("request" : String) ≠ "message" ∧ ("request" : String) ≠ "notice"
          ∧ ("request" : String) ≠ "meta_event")
        ∨ (("request" : String) = "message" ∧ (none : Option String) ≠ some "group"
          ∧ (none : Option String) ≠ some "private"))
    ∧ handleMessage ⟨1, 1, 1, 2, 1⟩ [("other", FutureState.pending)]
        ⟨some "tok", some "request", none, []⟩
      = ([("other", FutureState.pending)], ⟨none, false, [], false⟩) :=
  ⟨by decide, by decide,
   handleMessage_unknown_event_drops ⟨1, 1, 1, 2, 1⟩ [("other", FutureState.pending)]
     (some "tok") "request" none [] (by decide) (by decide)⟩

/-- C1: when an inbound frame carries a non-empty echo token bound in the
correlation table to a pending or cancelled future, handle_message pops
the entry (the token is gone from the resulting table), fulfills the
pending future with the whole frame — or, when the future was already
cancelled, discards the frame silently with no error — schedules no
subscriber, and a second frame carrying the same token can no longer
resolve anything, so no token is resolved twice. -/
theorem handleMessage_resolves_once (cbs : Callbacks) (table : Table) (e : String)
    (pt mt : Option String) (r : List (String × String))
    (hne : e ≠ "") (hnd : nodupKeys table)
    (hst : findToken? table e = some FutureState.pending
        ∨ findToken? table e = some FutureState.cancelled) :
    findToken? (handleMessage cbs table ⟨some e, pt, mt, r⟩).1 e = none
    ∧ ((findToken? table e = some FutureState.pending
          ∧ (handleMessage cbs table ⟨some e, pt, mt, r⟩).2
            = ⟨some (e, ⟨some e, pt, mt, r⟩), false, [], false⟩)
        ∨ (findToken? table e = some FutureState.cancelled
          ∧ (handleMessage cbs table ⟨some e, pt, mt, r⟩).2
            = ⟨none, true, [], false⟩))
    ∧ (∀ (pt' mt' : Option String) (r' : List (String × String)),
        (handleMessage cbs (handleMessage cbs table ⟨some e, pt, mt, r⟩).1
          ⟨some e, pt', mt', r'⟩).2.resolved = none) := by
  have herase : findToken? (eraseToken table e) e = none :=
    findToken?_eraseToken_self table e hnd
  rcases hst with h | h
  · have hmain : handleMessage cbs table ⟨some e, pt, mt, r⟩
        = (eraseToken table e, ⟨some (e, ⟨some e, pt, mt, r⟩), false, [], false⟩) := by
      unfold handleMessage
      simp [hne, h]
    refine ⟨?_, Or.inl ⟨h, by rw [hmain]⟩, ?_⟩
    · rw [hmain]; exact herase
    · intro pt' mt' r'
      rw [hmain]
      rw [handleMessage_echo_miss cbs (eraseToken table e) e pt' mt' r' herase]
  · have hmain : handleMessage cbs table ⟨some e, pt, mt, r⟩
        = (eraseToken table e, ⟨none, true, [], false⟩) := by
      unfold handleMessage
      simp [hne, h]
    refine ⟨?_, Or.inr ⟨h, by rw [hmain]⟩, ?_⟩
    · rw [hmain]; exact herase
    · intro pt' mt' r'
      rw [hmain]
      rw [handleMessage_echo_miss cbs (eraseToken table e) e pt' mt' r' herase]

/-- Witness for C1 at a concrete input: token "tok" pending in the table,
resolved by a matching frame; the entry is gone afterwards and a second
frame with the same token resolves nothing. -/
theorem handleMessage_resolves_once_witness :
    ("tok" : String) ≠ ""
    ∧ nodupKeys [("tok", FutureState.pending), ("other", FutureState.cancelled)]
    ∧ (findToken? [("tok", FutureState.pending), ("other", FutureState.cancelled)] "tok"
          = some FutureState.pending
        ∨ findToken? [("tok", FutureState.pending), ("other", FutureState.cancelled)] "tok"
          = some FutureState.cancelled)
    ∧ (findToken?
        (handleMessage ⟨1, 1, 1, 2, 1⟩
          [("tok", FutureState.pending), ("other", FutureState.cancelled)]
          ⟨some "tok", none, none, []⟩).1 "tok" = none
      ∧ ((findToken? [("tok", FutureState.pending), ("other", FutureState.cancelled)] "tok"
            = some FutureState.pending
          ∧ (handleMessage ⟨1, 1, 1, 2, 1⟩
              [("tok", FutureState.pending), ("other", FutureState.cancelled)]
              ⟨some "tok", none, none, []⟩).2
            = ⟨some ("tok", ⟨some "tok", none, none, []⟩), false, [], false⟩)
        ∨ (findToken? [("tok", FutureState.pending), ("other", FutureState.cancelled)] "tok"
            = some FutureState.cancelled
          ∧ (handleMessage ⟨1, 1, 1, 2, 1⟩
              [("tok", FutureState.pending), ("other", FutureState.cancelled)]
              ⟨some "tok", none, none, []⟩).2
            = ⟨none, true, [], false⟩))
      ∧ (∀ (pt' mt' : Option String) (r' : List (String × String)),
          (handleMessage ⟨1, 1, 1, 2, 1⟩
            (handleMessage ⟨1, 1, 1, 2, 1⟩
              [("tok", FutureState.pending), ("other", FutureState.cancelled)]
              ⟨some "tok", none, none, []⟩).1
            ⟨some "tok", pt', mt', r'⟩).2.resolved = none)) :=
  ⟨by decide, by decide, Or.inl (by decide),
   handleMessage_resolves_once ⟨1, 1, 1, 2, 1⟩
     [("tok", FutureState.pending), ("other", FutureState.cancelled)]
     "tok" none none [] (by decide) (by decide) (Or.inl (by decide))⟩

lemma any_wireEntryIsReplyInstance_false (l : List WireEntry) :
    l.any wireEntryIsReplyInstance = false := by
  induction l with
  | nil => rfl
  | cons a l ih => simp [List.any_cons, wireEntryIsReplyInstance, ih]

lemma foldl_toListStep_structure (segs : List QQMessageType) :
    ∀ R N : List WireEntry,
      segs.foldl toListStep (R ++ N)
        = (segs.filterMap segReplyConv).reverse ++ R ++ N ++ segs.filterMap segNonReplyConv := by
  induction segs with
  | nil => intro R N; simp
  | cons e rest ih =>
      intro R N
      cases e with
      | Text t =>
          have step : toListStep (R ++ N) (QQMessageType.Text t)
              = R ++ (N ++ [⟨"text", WireData.textD t⟩]) := by
            simp [toListStep]
          rw [List.foldl_cons, step, ih]
          simp [segReplyConv, segNonReplyConv, List.filterMap_cons]
      | Image url base64 =>
          have step : toListStep (R ++ N) (QQMessageType.Image url base64)
              = R ++ (N ++ [⟨"image", WireData.imageD (imageFileParam url base64) "[图片]"⟩]) := by
            simp [toListStep]
          rw [List.foldl_cons, step, ih]
          simp [segReplyConv, segNonReplyConv, List.filterMap_cons]
      | At pid nickname =>
          have step : toListStep (R ++ N) (QQMessageType.At pid nickname)
              = R ++ (N ++ [⟨"at", WireData.atD pid⟩]) := by
            simp [toListStep]
          rw [List.foldl_cons, step, ih]
          simp [segReplyConv, segNonReplyConv, List.filterMap_cons]
      | Reply message_id content =>
          have step : toListStep (R ++ N) (QQMessageType.Reply message_id content)
              = (⟨"reply", WireData.replyD message_id⟩ :: R) ++ N := by
            simp [toListStep, any_wireEntryIsReplyInstance_false]
          rw [List.foldl_cons, step, ih]
          simp [segReplyConv, segNonReplyConv, List.filterMap_cons]
      | Emoji emoji_id =>
          cases hp : pyInt? emoji_id with
          | some n =>
              have step : toListStep (R ++ N) (QQMessageType.Emoji emoji_id)
                  = R ++ (N ++ [⟨"face", WireData.faceD n⟩]) := by
                simp [toListStep, hp]
              rw [List.foldl_cons, step, ih]
              simp [segReplyConv, segNonReplyConv, List.filterMap_cons, hp]
          | none =>
              have step : toListStep (R ++ N) (QQMessageType.Emoji emoji_id) = R ++ N := by
                simp [toListStep, hp]
              rw [List.foldl_cons, step, ih]
              simp [segReplyConv, segNonReplyConv, List.filterMap_cons, hp]
      | Sticker sid sb =>
          have step : toListStep (R ++ N) (QQMessageType.Sticker sid sb)
              = R ++ (N ++ [⟨"image", WireData.imageD (stickerFileParam sb) "[动画表情]"⟩]) := by
            simp [toListStep]
          rw [List.foldl_cons, step, ih]
          simp [segReplyConv, segNonReplyConv, List.filterMap_cons]
      | Record bs64 =>
          have step : toListStep (R ++ N) (QQMessageType.Record bs64)
              = R ++ (N ++ [⟨"record", WireData.recordD (recordFileParam bs64)⟩]) := by
            simp [toListStep]
          rw [List.foldl_cons, step, ih]
          simp [segReplyConv, segNonReplyConv, List.filterMap_cons]
      | Notice t =>
          rw [List.foldl_cons]
          have step : toListStep (R ++ N) (QQMessageType.Notice t) = R ++ N := rfl
          rw [step, ih]
          simp [segReplyConv, segNonReplyConv, List.filterMap_cons]
      | Poke pid =>
          rw [List.foldl_cons]
          have step : toListStep (R ++ N) (QQMessageType.Poke pid) = R ++ N := rfl
          rw [step, ih]
          simp [segReplyConv, segNonReplyConv, List.filterMap_cons]

lemma foldl_toListStep_filter_notice_poke (segs : List QQMessageType) :
    ∀ acc : List WireEntry,
      (segs.filter (fun s => !segIsNoticeOrPoke s)).foldl toListStep acc
        = segs.foldl toListStep acc := by
  induction segs with
  | nil => intro acc; rfl
  | cons e rest ih =>
      intro acc
      cases e with
      | Notice t => simpa [List.filter_cons, segIsNoticeOrPoke, toListStep] using ih acc
      | Poke pid => simpa [List.filter_cons, segIsNoticeOrPoke, toListStep] using ih acc
      | Text t =>
          simp only [List.filter_cons, segIsNoticeOrPoke, Bool.not_false, if_true,
            List.foldl_cons]
          exact ih _
      | Image url base64 =>
          simp only [List.filter_cons, segIsNoticeOrPoke, Bool.not_false, if_true,
            List.foldl_cons]
          exact ih _
      | At pid nickname =>
          simp only [List.filter_cons, segIsNoticeOrPoke, Bool.not_false, if_true,
            List.foldl_cons]
          exact ih _
      | Reply message_id content =>
          simp only [List.filter_cons, segIsNoticeOrPoke, Bool.not_false, if_true,
            List.foldl_cons]
          exact ih _
      | Emoji emoji_id =>
          simp only [List.filter_cons, segIsNoticeOrPoke, Bool.not_false, if_true,
            List.foldl_cons]
          exact ih _
      | Sticker sid sb =>
          simp only [List.filter_cons, segIsNoticeOrPoke, Bool.not_false, if_true,
            List.foldl_cons]
          exact ih _
      | Record bs64 =>
          simp only [List.filter_cons, segIsNoticeOrPoke, Bool.not_false, if_true,
            List.foldl_cons]
          exact ih _

/-- C10 (counterexample): converting the chain [Text "a", Reply "5"] in
input order would give the text entry first, but to_list relocates the
reply entry to the front, so the output is not the in-order conversion of
the non-omitted segments. -/
theorem to_list_reply_breaks_input_order :
    QQMessageChain.to_list ⟨[QQMessageType.Text "a", QQMessageType.Reply "5" none]⟩
      = [⟨"reply", WireData.replyD "5"⟩, ⟨"text", WireData.textD "a"⟩]
    ∧ ([⟨"reply", WireData.replyD "5"⟩, ⟨"text", WireData.textD "a"⟩] : List WireEntry)
      ≠ [⟨"text", WireData.textD "a"⟩, ⟨"reply", WireData.replyD "5"⟩] :=
  ⟨rfl, by decide⟩

/-- C10 (amended): to_list produces no output entry for Notice or Poke
segments — deleting them from the chain leaves the output unchanged — and
the output consists of the reply entries, relocated to the front (most
recent first), followed by the entries of the remaining segments in input
order (an Emoji segment whose id is not a valid integer contributes no
entry); to_list is a total function, so no well-typed chain makes it
raise. -/
theorem to_list_omits_notice_poke_and_orders (c : QQMessageChain) :
    QQMessageChain.to_list ⟨c.msg_seg_list.filter (fun s => !segIsNoticeOrPoke s)⟩
      = c.to_list
    ∧ c.to_list
      = (c.msg_seg_list.filterMap segReplyConv).reverse
        ++ c.msg_seg_list.filterMap segNonReplyConv := by
  constructor
  · exact foldl_toListStep_filter_notice_poke c.msg_seg_list []
  · have h := foldl_toListStep_structure c.msg_seg_list [] []
    simpa [QQMessageChain.to_list] using h

end NapcatClient
